import Mathlib

/-!
Verification development for the TrebleDroid platform_packages_modules_Wifi
python sources: the Wi-Fi Aware Mobly conformance test
(tests/hostsidetests/multidevices/test/aware/wifi_aware_manager_test.py and
its constants module) and the repo upload hook (wifi_upload_hook.py).

Python strings are modelled as Lean `String` (or as code-point lists where
byte/str conversions matter), `bytes` values as `List Nat` of byte values,
dataclasses as structures, and the assertion-driven test helpers as functions
into `Except String _` where `Except.error` stands for a raised test failure.
-/

namespace Aware

/-- Code points of a Lean string: the model of a Python `str` as a list of
Unicode code points, used where the source converts between `str` and
`bytes`. -/
def strCps (s : String) : List Nat := s.data.map Char.toNat

/-- UTF-8 encoding of one code point, as produced by Python
`str.encode("utf-8")` (the sources only encode valid scalar values). -/
def utf8EncodeChar (c : Nat) : List Nat :=
  if c < 0x80 then [c]
  else if c < 0x800 then [0xC0 + c / 0x40, 0x80 + c % 0x40]
  else if c < 0x10000 then
    [0xE0 + c / 0x1000, 0x80 + (c / 0x40) % 0x40, 0x80 + c % 0x40]
  else
    [0xF0 + c / 0x40000, 0x80 + (c / 0x1000) % 0x40, 0x80 + (c / 0x40) % 0x40,
      0x80 + c % 0x40]

/-- UTF-8 encoding of a code-point sequence: Python `str.encode("utf-8")`. -/
def utf8Encode (cps : List Nat) : List Nat := (cps.map utf8EncodeChar).flatten

/-- Whether a byte is a UTF-8 continuation byte (10xxxxxx). -/
def isCont (b : Nat) : Bool := 0x80 ≤ b && b < 0xC0

/-- Strict UTF-8 decoding of a byte list to code points, exactly as Python
`bytes.decode("utf-8")`: rejects stray continuation bytes, overlong forms
(C0/C1 leads, E0 80-9F, F0 80-8F), surrogates (ED A0-BF), code points above
U+10FFFF (F4 90-BF, F5-FF leads) and truncated sequences; `none` models a
raised `UnicodeDecodeError`. -/
def utf8DecodeCps : List Nat → Option (List Nat)
  | [] => some []
  | b :: rest =>
    if b < 0x80 then
      match utf8DecodeCps rest with
      | some cps => some (b :: cps)
      | none => none
    else if b < 0xC2 then none
    else if b < 0xE0 then
      match rest with
      | b1 :: rest1 =>
        if isCont b1 then
          match utf8DecodeCps rest1 with
          | some cps => some (((b - 0xC0) * 0x40 + (b1 - 0x80)) :: cps)
          | none => none
        else none
      | [] => none
    else if b < 0xF0 then
      match rest with
      | b1 :: b2 :: rest2 =>
        if (if b = 0xE0 then decide (0xA0 ≤ b1) && decide (b1 < 0xC0)
            else if b = 0xED then decide (0x80 ≤ b1) && decide (b1 < 0xA0)
            else isCont b1) && isCont b2 then
          match utf8DecodeCps rest2 with
          | some cps =>
            some (((b - 0xE0) * 0x1000 + (b1 - 0x80) * 0x40 + (b2 - 0x80)) :: cps)
          | none => none
        else none
      | _ => none
    else if b < 0xF5 then
      match rest with
      | b1 :: b2 :: b3 :: rest3 =>
        if (if b = 0xF0 then decide (0x90 ≤ b1) && decide (b1 < 0xC0)
            else if b = 0xF4 then decide (0x80 ≤ b1) && decide (b1 < 0x90)
            else isCont b1) && isCont b2 && isCont b3 then
          match utf8DecodeCps rest3 with
          | some cps =>
            some (((b - 0xF0) * 0x40000 + (b1 - 0x80) * 0x1000
              + (b2 - 0x80) * 0x40 + (b3 - 0x80)) :: cps)
          | none => none
        else none
      | _ => none
    else none

/-- Python `bytes.decode("utf-8")` as a Lean `String`; `none` models a raised
decode error. -/
def utf8Decode (bs : List Nat) : Option String :=
  (utf8DecodeCps bs).map (fun cps => ⟨cps.map Char.ofNat⟩)

/-! ## constants.py: the Peer Session Model (configs and their dict serialization) -/

/-- A value of the serialized mapping a config's `to_dict` produces (the
wire/dict form sent to the snippet): strings, ints, booleans, lists and
sub-mappings. -/
inductive JVal where
  | jstr (s : String)
  | jint (n : Int)
  | jbool (b : Bool)
  | jlist (l : List JVal)
  | jdict (d : List (String × JVal))

/-- Whether the serialized mapping contains the key `k`. -/
def hasKey (d : List (String × JVal)) (k : String) : Bool :=
  d.any (fun p => p.1 == k)

/-- `class SubscribeType(enum.IntEnum): PASSIVE = 0; ACTIVE = 1`. -/
inductive SubscribeType where
  | PASSIVE
  | ACTIVE
deriving DecidableEq

/-- The integer enum code of a `SubscribeType` (its `.value`). -/
def SubscribeType.value : SubscribeType → Int
  | .PASSIVE => 0
  | .ACTIVE => 1

/-- `class PublishType(enum.IntEnum): UNSOLICITED = 0; SOLICITED = 1`. -/
inductive PublishType where
  | UNSOLICITED
  | SOLICITED
deriving DecidableEq

/-- The integer enum code of a `PublishType` (its `.value`). -/
def PublishType.value : PublishType → Int
  | .UNSOLICITED => 0
  | .SOLICITED => 1

/-- `BootstrappingMethod.OPPORTUNISTIC`, the default bootstrapping bitmask. -/
def BootstrappingMethod.OPPORTUNISTIC : Int := 1

/-- `@dataclasses.dataclass(frozen=True) class AwarePairingConfig`: three
boolean capability flags plus the bootstrapping-method integer bitmask
(a `BootstrappingMethod` value, taken through `.value` by `to_dict`). -/
structure AwarePairingConfig where
  pairing_cache_enabled : Bool := false
  pairing_setup_enabled : Bool := false
  pairing_verification_enabled : Bool := false
  bootstrapping_methods : Int := BootstrappingMethod.OPPORTUNISTIC

/-- `AwarePairingConfig.to_dict`: `dataclasses.asdict(self)` (all four fields,
in declaration order) with `bootstrapping_methods` replaced by its integer
value. -/
def AwarePairingConfig.to_dict (pc : AwarePairingConfig) : List (String × JVal) :=
  [("pairing_cache_enabled", JVal.jbool pc.pairing_cache_enabled),
   ("pairing_setup_enabled", JVal.jbool pc.pairing_setup_enabled),
   ("pairing_verification_enabled", JVal.jbool pc.pairing_verification_enabled),
   ("bootstrapping_methods", JVal.jint pc.bootstrapping_methods)]

/-- UTF-8 decoding of every element of a match-filter list, in order: the list
comprehension `[mf.decode("utf-8") for mf in self.match_filter]`; `none` when
some element raises a decode error. -/
def decodeAll : List (List Nat) → Option (List String)
  | [] => some []
  | b :: bs =>
    match utf8Decode b, decodeAll bs with
    | some s, some ss => some (s :: ss)
    | _, _ => none

/-- The `match_filter` portion of a serialized config: the key is deleted when
the field is `None` (`del result["match_filter"]`), otherwise it maps to the
UTF-8-decoded elements; a decode error propagates. -/
def mfEntry : Option (List (List Nat)) → Option (List (String × JVal))
  | none => some []
  | some mfs =>
    match decodeAll mfs with
    | none => none
    | some ss => some [("match_filter", JVal.jlist (ss.map JVal.jstr))]

/-- The `pairing_config` portion of a serialized config: the key is deleted
when the field is `None`, otherwise it maps to `pairing_config.to_dict()`. -/
def pcEntry : Option AwarePairingConfig → List (String × JVal)
  | none => []
  | some pc => [("pairing_config", JVal.jdict pc.to_dict)]

/-- The `max_distance_mm` portion of `SubscribeConfig.to_dict`: the key is
deleted when the field is `None` (`del result["max_distance_mm"]`). -/
def mdEntry : Option Int → List (String × JVal)
  | none => []
  | some d => [("max_distance_mm", JVal.jint d)]

/-- `@dataclasses.dataclass(frozen=True) class SubscribeConfig`. -/
structure SubscribeConfig where
  service_name : String
  service_specific_info : List Nat
  match_filter : Option (List (List Nat))
  subscribe_type : SubscribeType
  terminate_notification_enabled : Bool := false
  max_distance_mm : Option Int := none
  pairing_config : Option AwarePairingConfig := none

/-- `SubscribeConfig.to_dict`: `dataclasses.asdict(self)` in field-declaration
order, with `subscribe_type` replaced by its integer value,
`service_specific_info` UTF-8 decoded, and the optional `match_filter`,
`pairing_config` and `max_distance_mm` keys deleted when `None` (otherwise
decoded / recursively serialized in place); `none` models a raised
`UnicodeDecodeError` from one of the `.decode("utf-8")` calls. -/
def SubscribeConfig.to_dict (c : SubscribeConfig) : Option (List (String × JVal)) :=
  match utf8Decode c.service_specific_info, mfEntry c.match_filter with
  | some ssi, some mfPart =>
    some ([("service_name", JVal.jstr c.service_name),
           ("service_specific_info", JVal.jstr ssi)]
          ++ mfPart
          ++ [("subscribe_type", JVal.jint c.subscribe_type.value),
              ("terminate_notification_enabled",
                JVal.jbool c.terminate_notification_enabled)]
          ++ mdEntry c.max_distance_mm
          ++ pcEntry c.pairing_config)
  | _, _ => none

/-- `@dataclasses.dataclass(frozen=True) class PublishConfig`. -/
structure PublishConfig where
  service_name : String
  service_specific_info : List Nat
  match_filter : Option (List (List Nat))
  publish_type : PublishType
  terminate_notification_enabled : Bool
  ranging_enabled : Bool
  pairing_config : Option AwarePairingConfig := none

/-- `PublishConfig.to_dict`: `dataclasses.asdict(self)` in field-declaration
order, with `publish_type` replaced by its integer value,
`service_specific_info` UTF-8 decoded, and the optional `match_filter` and
`pairing_config` keys deleted when `None`; `none` models a raised
`UnicodeDecodeError`. -/
def PublishConfig.to_dict (c : PublishConfig) : Option (List (String × JVal)) :=
  match utf8Decode c.service_specific_info, mfEntry c.match_filter with
  | some ssi, some mfPart =>
    some ([("service_name", JVal.jstr c.service_name),
           ("service_specific_info", JVal.jstr ssi)]
          ++ mfPart
          ++ [("publish_type", JVal.jint c.publish_type.value),
              ("terminate_notification_enabled",
                JVal.jbool c.terminate_notification_enabled),
              ("ranging_enabled", JVal.jbool c.ranging_enabled)]
          ++ pcEntry c.pairing_config)
  | _, _ => none

/-- `class WifiAwareTestConstants`: `SERVICE_NAME`. -/
def WifiAwareTestConstants.SERVICE_NAME : String := "CtsVerifierTestService"

/-- `MATCH_FILTER_BYTES = "bytes used for matching".encode("utf-8")`. -/
def WifiAwareTestConstants.MATCH_FILTER_BYTES : List Nat :=
  utf8Encode (strCps "bytes used for matching")

/-- `PUB_SSI = "Extra bytes in the publisher discovery".encode("utf-8")`. -/
def WifiAwareTestConstants.PUB_SSI : List Nat :=
  utf8Encode (strCps "Extra bytes in the publisher discovery")

/-- `SUB_SSI = "Arbitrary bytes for the subscribe discovery".encode("utf-8")`. -/
def WifiAwareTestConstants.SUB_SSI : List Nat :=
  utf8Encode (strCps "Arbitrary bytes for the subscribe discovery")

/-- `TEST_MESSAGE = "test message!"`. -/
def WifiAwareTestConstants.TEST_MESSAGE : String := "test message!"

/-- `MESSAGE_ID = 1234`. -/
def WifiAwareTestConstants.MESSAGE_ID : Int := 1234

/-- `AWARE_NETWORK_INFO_CLASS_NAME` from constants.py. -/
def AWARE_NETWORK_INFO_CLASS_NAME : String :=
  "android.net.wifi.aware.WifiAwareNetworkInfo"

/-- Member lookup on the (second, effective) `WifiAwareSnippetParams` string
enum of constants.py: maps a member name to its string value, `none` for a
member the class does not define (a Python `AttributeError`). -/
def WifiAwareSnippetParams.lookup : String → Option String
  | "SERVICE_SPECIFIC_INFO" => some "serviceSpecificInfo"
  | "RECEIVED_MESSAGE" => some "receivedMessage"
  | "PEER_HANDLE" => some "peerHandle"
  | "MATCH_FILTER" => some "matchFilter"
  | "MATCH_FILTER_VALUE" => some "value"
  | "PAIRED_ALIAS" => some "pairedAlias"
  | "PAIRING_CONFIG" => some "pairingConfig"
  | "DISTANCE_MM" => some "distanceMm"
  | "LAST_MESSAGE_ID" => some "lastMessageId"
  | "PAIRING_REQUEST_ID" => some "pairingRequestId"
  | "BOOTSTRAPPING_METHOD" => some "bootstrappingMethod"
  | _ => none

/-- `DiscoverySessionCallbackMethodType.PUBLISH_STARTED`. -/
def DiscoverySessionCallbackMethodType.PUBLISH_STARTED : String := "onPublishStarted"

/-- `DiscoverySessionCallbackMethodType.SUBSCRIBE_STARTED`. -/
def DiscoverySessionCallbackMethodType.SUBSCRIBE_STARTED : String := "onSubscribeStarted"

/-- `DiscoverySessionCallbackMethodType.MESSAGE_SEND_SUCCEEDED`. -/
def DiscoverySessionCallbackMethodType.MESSAGE_SEND_SUCCEEDED : String :=
  "onMessageSendSucceeded"

/-- `DiscoverySessionCallbackMethodType.MESSAGE_SEND_FAILED`. -/
def DiscoverySessionCallbackMethodType.MESSAGE_SEND_FAILED : String :=
  "onMessageSendFailed"

/-- `NetworkCbName.ON_UNAVAILABLE`. -/
def NetworkCbName.ON_UNAVAILABLE : String := "onUnavailable"

/-- `NetworkCbName.ON_CAPABILITIES_CHANGED`. -/
def NetworkCbName.ON_CAPABILITIES_CHANGED : String := "onCapabilitiesChanged"

/-! ## wifi_aware_manager_test.py: the orchestration helpers

Each helper raises Mobly assertion failures; a raise is modelled as
`Except.error` with a fixed message and normal completion as `Except.ok`.
The event each helper waits for is passed in as a structure holding the
fields of the event's `data` mapping that the helper reads. -/

/-- The data of the `onServiceDiscovered` / `onServiceDiscoveredWithinRange`
event read by `_wait_for_discovery`: the `serviceSpecificInfo` byte list, the
`value` byte list of each `matchFilter` entry (the source extracts
`bytes(filter["value"])` for each element), and the `peerHandle` field a
well-formed event carries. -/
structure DiscoverData where
  serviceSpecificInfo : List Nat
  matchFilter : List (List Nat)
  peerHandle : Int

/-- The two `asserts.assert_equal` checks of `_wait_for_discovery` (lines
313-336): the event's service-specific-info bytes are compared with
`bytes(constants.WifiAwareTestConstants.PUB_SSI)` and the extracted
match-filter values with `[constants.WifiAwareTestConstants.MATCH_FILTER_BYTES]`
— both fixed module constants; the `pub_service_specific_info` parameter of
`_wait_for_discovery` is never read. -/
def waitForDiscoveryAsserts (pub_service_specific_info : List Nat)
    (ev : DiscoverData) : Except String Unit :=
  let service_info := ev.serviceSpecificInfo
  let str_expected_service_info := WifiAwareTestConstants.PUB_SSI
  if service_info ≠ str_expected_service_info then
    Except.error "got unexpected service info in discovery callback event"
  else
    let match_filters := ev.matchFilter
    if match_filters ≠ [WifiAwareTestConstants.MATCH_FILTER_BYTES] then
      Except.error "got unexpected match filter data in discovery callback event"
    else Except.ok ()

/-- `_wait_for_discovery` (lines 297-337): runs the two assertions, then
executes `return discover_data.data[constants.WifiAwareSnippetParams.PEER_ID]`.
`PEER_ID` is not a member of `WifiAwareSnippetParams` in constants.py (the
class only defines `PEER_HANDLE = "peerHandle"`), so the attribute access
raises before the event data is indexed. -/
def waitForDiscovery (pub_service_specific_info : List Nat)
    (ev : DiscoverData) : Except String Int :=
  match waitForDiscoveryAsserts pub_service_specific_info ev with
  | Except.error e => Except.error e
  | Except.ok () =>
    match WifiAwareSnippetParams.lookup "PEER_ID" with
    | none => Except.error "AttributeError: PEER_ID"
    | some _ => Except.ok ev.peerHandle

/-- The data of the sender's `messageSendResult` event read by
`_send_msg_and_check_received`: its `callbackName` and `messageId` fields. -/
structure MessageSendResult where
  callbackName : String
  messageId : Int

/-- The data of the receiver's `onMessageReceived` event: the
`receivedMessage` byte list and the `peerHandle` field a well-formed event
carries. -/
structure MessageReceivedEvent where
  receivedMessage : List Nat
  peerHandle : Int

/-- The three assertions of `_send_msg_and_check_received` (lines 355-387):
the send-result callback name must equal `MESSAGE_SEND_SUCCEEDED`, the echoed
message id must equal `send_message_id`, and the received payload, decoded as
UTF-8 (`bytes(received_message_raw).decode("utf-8")`), must equal
`send_message`. -/
def sendMsgChecks (send_message : String) (send_message_id : Int)
    (sendResult : MessageSendResult) (recvEvent : MessageReceivedEvent) :
    Except String Unit :=
  if sendResult.callbackName ≠ DiscoverySessionCallbackMethodType.MESSAGE_SEND_SUCCEEDED then
    Except.error "failed to send message with an unexpected callback"
  else if sendResult.messageId ≠ send_message_id then
    Except.error "send message succeeded but message ID mismatched"
  else
    match utf8Decode recvEvent.receivedMessage with
    | none => Except.error "UnicodeDecodeError"
    | some received_message =>
      if received_message ≠ send_message then
        Except.error "received the message but message content mismatched"
      else Except.ok ()

/-- `_send_msg_and_check_received` (lines 340-388): runs the three checks,
then executes
`return receive_message_event.data[constants.WifiAwareSnippetParams.PEER_ID]`;
as in `_wait_for_discovery`, the `PEER_ID` attribute does not exist. -/
def sendMsgAndCheckReceived (send_message : String) (send_message_id : Int)
    (sendResult : MessageSendResult) (recvEvent : MessageReceivedEvent) :
    Except String Int :=
  match sendMsgChecks send_message send_message_id sendResult recvEvent with
  | Except.error e => Except.error e
  | Except.ok () =>
    match WifiAwareSnippetParams.lookup "PEER_ID" with
    | none => Except.error "AttributeError: PEER_ID"
    | some _ => Except.ok recvEvent.peerHandle

/-- The data of the `discoveryResult` event read by `_start_publish` /
`_start_subscribe`: the `callbackName` and `isSessionInitialized` fields. -/
structure DiscoveryResultEvent where
  callbackName : String
  isSessionInitialized : Bool

/-- The tail of `_start_publish` (lines 234-251): after receiving the
`discoveryResult` event, asserts the callback name equals `PUBLISH_STARTED`
and the session-initialized flag is truthy, then returns `publish_handler`. -/
def startPublishWait {α : Type} (publish_handler : α)
    (ev : DiscoveryResultEvent) : Except String α :=
  if DiscoverySessionCallbackMethodType.PUBLISH_STARTED ≠ ev.callbackName then
    Except.error "publish failed, got unexpected callback"
  else if ¬ ev.isSessionInitialized then
    Except.error "publish succeeded, but null discovery session returned"
  else Except.ok publish_handler

/-- The tail of `_start_subscribe` (lines 279-295): asserts the callback name
equals `SUBSCRIBE_STARTED` and the session-initialized flag is truthy, then
returns `subscribe_handler`. -/
def startSubscribeWait {α : Type} (subscribe_handler : α)
    (ev : DiscoveryResultEvent) : Except String α :=
  if DiscoverySessionCallbackMethodType.SUBSCRIBE_STARTED ≠ ev.callbackName then
    Except.error "subscribe failed, got unexpected callback"
  else if ¬ ev.isSessionInitialized then
    Except.error "subscribe succeeded, but null session returned"
  else Except.ok subscribe_handler

/-- The data of the `NetworkCallback` event read by `_wait_for_network`: the
`callbackName` and `transportInfoClassName` fields, and the truthiness of the
`network` and `networkCapabilities` fields. -/
structure NetworkCbEvent where
  callbackName : String
  network : Bool
  networkCapabilities : Bool
  transportInfoClassName : String

/-- `_wait_for_network` (lines 408-445) after receiving one callback event:
`onUnavailable` is `asserts.fail`; `onCapabilitiesChanged` asserts
`network and network_capabilities` is truthy and the transport-info class name
equals `AWARE_NETWORK_INFO_CLASS_NAME`; any other callback name is
`asserts.fail`. -/
def waitForNetwork (ev : NetworkCbEvent) : Except String Unit :=
  if ev.callbackName = NetworkCbName.ON_UNAVAILABLE then
    Except.error "failed to request the network"
  else if ev.callbackName = NetworkCbName.ON_CAPABILITIES_CHANGED then
    if ¬ (ev.network && ev.networkCapabilities) then
      Except.error "received a null Network or NetworkCapabilities"
    else if ev.transportInfoClassName ≠ AWARE_NETWORK_INFO_CLASS_NAME then
      Except.error "network capabilities changes but it is not a WiFi Aware network"
    else Except.ok ()
  else Except.error "got unknown request network callback"

/-- `_MSG_ID_SUB_TO_PUB = random.randint(1000, 5000)` (line 42): the draw is
modelled as a function of the RNG state `r`, covering exactly the values
1000..5000. -/
def msgIdSubToPub (r : Nat) : Nat := 1000 + r % 4001

/-- `_MSG_ID_PUB_TO_SUB = random.randint(5001, 9999)` (line 43). -/
def msgIdPubToSub (r : Nat) : Nat := 5001 + r % 4999

/-- Line 44: the string
`"Let's talk [Random Identifier: %s]" % utils.rand_ascii_str(5)`, as a
function of the random identifier drawn by `utils.rand_ascii_str(5)`. -/
def msgSubToPub (ident : String) : String :=
  "Let\x27s talk [Random Identifier: " ++ ident ++ "]"

/-- Line 45: `'Ready [Random Identifier: %s]' % utils.rand_ascii_str(5)`. -/
def msgPubToSub (ident : String) : String :=
  "Ready [Random Identifier: " ++ ident ++ "]"

/-- The `PublishConfig` built by `_start_publish` for the call in
`test_create_wifi_aware_network` (lines 114-120 with the defaults of lines
209-227): unsolicited publish with `_PUB_SSI` and `_MATCH_FILTER`. -/
def testPublishConfig : PublishConfig :=
  { service_name := WifiAwareTestConstants.SERVICE_NAME
    service_specific_info := WifiAwareTestConstants.PUB_SSI
    match_filter := some [WifiAwareTestConstants.MATCH_FILTER_BYTES]
    publish_type := PublishType.UNSOLICITED
    terminate_notification_enabled := true
    ranging_enabled := false
    pairing_config := none }

/-- The `SubscribeConfig` built by `_start_subscribe` for the call in
`test_create_wifi_aware_network` (lines 124-128 with the defaults of lines
253-272): passive subscribe with `SUB_SSI` and `_MATCH_FILTER`. -/
def testSubscribeConfig : SubscribeConfig :=
  { service_name := WifiAwareTestConstants.SERVICE_NAME
    service_specific_info := WifiAwareTestConstants.SUB_SSI
    match_filter := some [WifiAwareTestConstants.MATCH_FILTER_BYTES]
    subscribe_type := SubscribeType.PASSIVE
    terminate_notification_enabled := true
    max_distance_mm := none
    pairing_config := none }

end Aware

/-! ## wifi_upload_hook.py: the commit-message validation hook

A commit message is represented by its list of lines (`commit_msg.splitlines()`);
the two subprocess-backed environment probes `is_in_aosp()` and
`is_xml_tag_in_commits()` are inputs of the model of `main`. -/

namespace Hook

/-- Python `str.isspace()` on one character (the set `str.strip()` strips). -/
def isPySpace (c : Char) : Bool :=
  ([9, 10, 11, 12, 13, 28, 29, 30, 31, 32, 0x85, 0xA0, 0x1680,
    0x2000, 0x2001, 0x2002, 0x2003, 0x2004, 0x2005, 0x2006, 0x2007, 0x2008,
    0x2009, 0x200A, 0x2028, 0x2029, 0x202F, 0x205F, 0x3000] : List Nat).contains c.toNat

/-- Python `str.strip()`: drop leading and trailing whitespace. -/
def pyStrip (s : String) : String :=
  ⟨((s.data.dropWhile isPySpace).reverse.dropWhile isPySpace).reverse⟩

/-- Python `str.lower()` (ASCII case fold via `Char.toLower`; the prefixes the
hook compares against are all ASCII). -/
def pyLower (s : String) : String := ⟨s.data.map Char.toLower⟩

/-- Python `str.startswith(pre)`. -/
def pyStartsWith (s pre : String) : Bool := pre.data.isPrefixOf s.data

/-- `BASE_DIR = "service/ServiceWifiResources/res/"`. -/
def BASE_DIR : String := "service/ServiceWifiResources/res/"

/-- `OVERLAY_FILE`. -/
def OVERLAY_FILE : String := BASE_DIR ++ "values/overlayable.xml"

/-- `CONFIG_FILE`. -/
def CONFIG_FILE : String := BASE_DIR ++ "values/config.xml"

/-- `STRING_FILE`. -/
def STRING_FILE : String := BASE_DIR ++ "values/strings.xml"

/-- `STYLES_FILE`. -/
def STYLES_FILE : String := BASE_DIR ++ "values/styles.xml"

/-- `DRAWABLE_DIR`. -/
def DRAWABLE_DIR : String := BASE_DIR ++ "drawable/"

/-- `LAYOUT_DIR`. -/
def LAYOUT_DIR : String := BASE_DIR ++ "layout/"

/-- `BASE_WIFI_SERVICE_DIR = "service/java/com/android/server/wifi/"`. -/
def BASE_WIFI_SERVICE_DIR : String := "service/java/com/android/server/wifi/"

/-- `XML_UTIL_FILE`. -/
def XML_UTIL_FILE : String := BASE_WIFI_SERVICE_DIR ++ "util/XmlUtil.java"

/-- `CLOUD_BACKUP_RESTORE_FILE`. -/
def CLOUD_BACKUP_RESTORE_FILE : String := BASE_WIFI_SERVICE_DIR ++ "WifiBackupRestore.java"

/-- `CLOUD_BACKUP_PARSER_FILE`. -/
def CLOUD_BACKUP_PARSER_FILE : String := BASE_WIFI_SERVICE_DIR ++ "WifiBackupDataV1Parser.java"

/-- One iteration of the loop body of `is_commit_msg_valid` (lines 38-48),
on the state `(isValid, checkResource, checkXmlTag)`: the line is stripped and
lowercased; while `checkResource` is set, an `updated-overlayable` prefix sets
`isValid = True` and clears `checkResource`; while `checkXmlTag` is set,
`isValid` is set to `False` and only a `reviewed-cloud-b&r` prefix restores it
to `True` and clears `checkXmlTag`. -/
def msgValidStep (s : Bool × Bool × Bool) (rawLine : String) : Bool × Bool × Bool :=
  let line := pyLower (pyStrip rawLine)
  let s1 : Bool × Bool × Bool :=
    if s.2.1 then
      if pyStartsWith line "updated-overlayable" then (true, false, s.2.2) else s
    else s
  if s1.2.2 then
    if pyStartsWith line "reviewed-cloud-b&r" then (true, s1.2.1, false)
    else (false, s1.2.1, true)
  else s1

/-- `is_commit_msg_valid(commit_msg, checkResource, checkXmlTag)` (lines
36-50): folds the loop body over the lines of the message starting from
`isValid = True` and returns the final `isValid`. -/
def is_commit_msg_valid (commit_msg_lines : List String)
    (checkResource checkXmlTag : Bool) : Bool :=
  (commit_msg_lines.foldl msgValidStep (true, checkResource, checkXmlTag)).1

/-- `get_changed_resource_file(commit_files)` (lines 63-75): the first commit
file that equals `STRING_FILE`, `CONFIG_FILE` or `STYLES_FILE` or lies under
`DRAWABLE_DIR` or `LAYOUT_DIR`; `None` when there is none. -/
def get_changed_resource_file : List String → Option String
  | [] => none
  | commit_file :: rest =>
    if commit_file = STRING_FILE then some STRING_FILE
    else if commit_file = CONFIG_FILE then some commit_file
    else if commit_file = STYLES_FILE then some commit_file
    else if pyStartsWith commit_file DRAWABLE_DIR then some commit_file
    else if pyStartsWith commit_file LAYOUT_DIR then some commit_file
    else get_changed_resource_file rest

/-- `get_changed_xml_related_file(commit_files)` (lines 77-85). -/
def get_changed_xml_related_file : List String → Option String
  | [] => none
  | commit_file :: rest =>
    if commit_file = XML_UTIL_FILE then some commit_file
    else if commit_file = CLOUD_BACKUP_RESTORE_FILE then some commit_file
    else if commit_file = CLOUD_BACKUP_PARSER_FILE then some commit_file
    else get_changed_xml_related_file rest

/-- `is_commit_msg_has_translation_bug_id(commit_msg)` (lines 87-92): whether
some stripped, lowercased line starts with the translation bug id line. -/
def is_commit_msg_has_translation_bug_id (commit_msg_lines : List String) : Bool :=
  commit_msg_lines.any (fun l => pyStartsWith (pyLower (pyStrip l)) "bug: 294871353")

/-- `main()` (lines 106-161), with the two environment probes `is_in_aosp()`
and `is_xml_tag_in_commits()` as boolean inputs: inside AOSP it returns 0;
otherwise a changed resource file triggers the translation-bug-id check (for
`STRING_FILE`) and the `is_commit_msg_valid(msg, True, False)` overlayable
check, and a changed xml-related file with changed XML tags triggers the
`is_commit_msg_valid(msg, False, True)` check; each failing check returns 1,
otherwise 0. -/
def main (in_aosp : Bool) (xml_tag_in_commits : Bool)
    (commit_msg_lines : List String) (commit_files : List String) : Nat :=
  if in_aosp then 0
  else
    let resourceExit : Option Nat :=
      match get_changed_resource_file commit_files with
      | none => none
      | some changed_resource_file =>
        if changed_resource_file = STRING_FILE
            && ! is_commit_msg_has_translation_bug_id commit_msg_lines then some 1
        else if ! is_commit_msg_valid commit_msg_lines true false then some 1
        else none
    match resourceExit with
    | some code => code
    | none =>
      match get_changed_xml_related_file commit_files with
      | none => 0
      | some _ =>
        if xml_tag_in_commits
            && ! is_commit_msg_valid commit_msg_lines false true then 1
        else 0

end Hook

/-- Whether an `Except` result is a normal completion (no assertion raised). -/
def okB {ε α : Type} : Except ε α → Bool
  | Except.ok _ => true
  | Except.error _ => false

/-! ## Claims -/

/-- C1 (counterexample): it is not the case that, for every publish
configuration P (service-specific-info bytes and match-filter byte list), the
assertions of `_wait_for_discovery` pass exactly when the discovery event
carries P's configured values: with P = ([0], [[1]]) and an event carrying
exactly those values, the assertions fail (they compare against the fixed
constants `WifiAwareTestConstants.PUB_SSI` / `MATCH_FILTER_BYTES`, not against
P). -/
theorem c1_discovery_asserts_not_against_config :
    ¬ (∀ (pub_ssi : List Nat) (pub_mf : List (List Nat)) (ev : Aware.DiscoverData),
        okB (Aware.waitForDiscoveryAsserts pub_ssi ev) = true ↔
          (ev.serviceSpecificInfo = pub_ssi ∧ ev.matchFilter = pub_mf)) := by
  intro h
  have h0 := (h [0] [[1]] ⟨[0], [[1]], 0⟩).mpr ⟨rfl, rfl⟩
  have h1 : okB (Aware.waitForDiscoveryAsserts [0] ⟨[0], [[1]], 0⟩) = false := by decide
  rw [h1] at h0
  exact Bool.false_ne_true h0

/-- C1 (amended): the Discovery Verifier `_wait_for_discovery` asserts the
event's service-specific-info bytes and match-filter value bytes equal the
fixed built-in constants `WifiAwareTestConstants.PUB_SSI` and
`[WifiAwareTestConstants.MATCH_FILTER_BYTES]`, irrespective of its
`pub_service_specific_info` parameter (which is never read); this coincides
with the publisher's configured values only because the test publishes with
exactly those constants. -/
theorem c1_amended_discovery_asserts_fixed_constants :
    ∀ (pub_service_specific_info : List Nat) (ev : Aware.DiscoverData),
      okB (Aware.waitForDiscoveryAsserts pub_service_specific_info ev) = true ↔
        (ev.serviceSpecificInfo = Aware.WifiAwareTestConstants.PUB_SSI
         ∧ ev.matchFilter = [Aware.WifiAwareTestConstants.MATCH_FILTER_BYTES]) := by
  intro _p ev
  unfold Aware.waitForDiscoveryAsserts
  by_cases h1 : ev.serviceSpecificInfo = Aware.WifiAwareTestConstants.PUB_SSI
  · by_cases h2 : ev.matchFilter = [Aware.WifiAwareTestConstants.MATCH_FILTER_BYTES]
    · simp [h1, h2, okB]
    · simp [h1, h2, okB]
  · simp [h1, okB]

/-- C2: `_send_msg_and_check_received` passes its three assertions exactly
when the sender's message-send-result event has callback name
`MESSAGE_SEND_SUCCEEDED` (any other callback name is an assertion failure),
echoes the sent identifier exactly, and the receiver's message-received
payload, decoded as UTF-8, equals the sent message exactly. -/
theorem c2_message_exchange_assertions :
    ∀ (send_message : String) (send_message_id : Int)
      (sr : Aware.MessageSendResult) (re : Aware.MessageReceivedEvent),
      okB (Aware.sendMsgChecks send_message send_message_id sr re) = true ↔
        (sr.callbackName = Aware.DiscoverySessionCallbackMethodType.MESSAGE_SEND_SUCCEEDED
         ∧ sr.messageId = send_message_id
         ∧ Aware.utf8Decode re.receivedMessage = some send_message) := by
  intro m i sr re
  unfold Aware.sendMsgChecks
  by_cases h1 : sr.callbackName = Aware.DiscoverySessionCallbackMethodType.MESSAGE_SEND_SUCCEEDED
  · by_cases h2 : sr.messageId = i
    · cases hd : Aware.utf8Decode re.receivedMessage with
      | none => simp [h1, h2, hd, okB]
      | some r =>
        by_cases h3 : r = m
        · simp [h1, h2, hd, h3, okB]
        · simp [h1, h2, hd, h3, okB]
    · simp [h1, h2, okB]
  · simp [h1, okB]

/-- C3 (code bug): both return paths index the event data with
`constants.WifiAwareSnippetParams.PEER_ID`, but the `WifiAwareSnippetParams`
enum of constants.py defines no `PEER_ID` member (only
`PEER_HANDLE = "peerHandle"`), so on a well-formed event that passes every
assertion both `_wait_for_discovery` and `_send_msg_and_check_received` raise
an `AttributeError` instead of returning the peer handle. -/
theorem c3_peer_id_attribute_missing :
    Aware.WifiAwareSnippetParams.lookup "PEER_ID" = none
  ∧ Aware.WifiAwareSnippetParams.lookup "PEER_HANDLE" = some "peerHandle"
  ∧ Aware.waitForDiscovery Aware.WifiAwareTestConstants.PUB_SSI
      ⟨Aware.WifiAwareTestConstants.PUB_SSI,
        [Aware.WifiAwareTestConstants.MATCH_FILTER_BYTES], 7⟩
      = Except.error "AttributeError: PEER_ID"
  ∧ Aware.sendMsgAndCheckReceived "hello" 1
      ⟨Aware.DiscoverySessionCallbackMethodType.MESSAGE_SEND_SUCCEEDED, 1⟩
      ⟨Aware.utf8Encode (Aware.strCps "hello"), 7⟩
      = Except.error "AttributeError: PEER_ID" :=
  ⟨rfl, rfl, rfl, rfl⟩

/-- C4: the session-start steps `_start_publish` and `_start_subscribe`
complete and return their session handle exactly when the received
discovery-result event has the role's expected started callback name
(`PUBLISH_STARTED` resp. `SUBSCRIBE_STARTED`) and a true session-initialized
flag; any other combination is an assertion failure (an error, not a retry). -/
theorem c4_session_start_iff :
    (∀ (α : Type) (publish_handler : α) (ev : Aware.DiscoveryResultEvent),
        (Aware.startPublishWait publish_handler ev = Except.ok publish_handler ↔
          (ev.callbackName = Aware.DiscoverySessionCallbackMethodType.PUBLISH_STARTED
           ∧ ev.isSessionInitialized = true))
      ∧ (okB (Aware.startPublishWait publish_handler ev) = true ↔
          (ev.callbackName = Aware.DiscoverySessionCallbackMethodType.PUBLISH_STARTED
           ∧ ev.isSessionInitialized = true)))
  ∧ (∀ (α : Type) (subscribe_handler : α) (ev : Aware.DiscoveryResultEvent),
        (Aware.startSubscribeWait subscribe_handler ev = Except.ok subscribe_handler ↔
          (ev.callbackName = Aware.DiscoverySessionCallbackMethodType.SUBSCRIBE_STARTED
           ∧ ev.isSessionInitialized = true))
      ∧ (okB (Aware.startSubscribeWait subscribe_handler ev) = true ↔
          (ev.callbackName = Aware.DiscoverySessionCallbackMethodType.SUBSCRIBE_STARTED
           ∧ ev.isSessionInitialized = true))) := by
  constructor
  · intro α h ev
    unfold Aware.startPublishWait
    by_cases h1 : Aware.DiscoverySessionCallbackMethodType.PUBLISH_STARTED = ev.callbackName
    · by_cases h2 : ev.isSessionInitialized = true
      · simp [← h1, h2, okB]
      · simp [← h1, h2, okB]
    · have h1' : ¬ ev.callbackName = Aware.DiscoverySessionCallbackMethodType.PUBLISH_STARTED :=
        fun hc => h1 hc.symm
      simp [h1, h1', okB]
  · intro α h ev
    unfold Aware.startSubscribeWait
    by_cases h1 : Aware.DiscoverySessionCallbackMethodType.SUBSCRIBE_STARTED = ev.callbackName
    · by_cases h2 : ev.isSessionInitialized = true
      · simp [← h1, h2, okB]
      · simp [← h1, h2, okB]
    · have h1' : ¬ ev.callbackName = Aware.DiscoverySessionCallbackMethodType.SUBSCRIBE_STARTED :=
        fun hc => h1 hc.symm
      simp [h1, h1', okB]

/-- C5: `_wait_for_network` completes normally exactly when the inspected
network-callback event has callback name `onCapabilitiesChanged` with truthy
`network` and `networkCapabilities` fields and transport-info class name
`android.net.wifi.aware.WifiAwareNetworkInfo`; in particular an `onUnavailable`
callback, and any other callback name, always raise a test failure. -/
theorem c5_wait_for_network_iff :
    ∀ ev : Aware.NetworkCbEvent,
      okB (Aware.waitForNetwork ev) = true ↔
        (ev.callbackName = Aware.NetworkCbName.ON_CAPABILITIES_CHANGED
         ∧ ev.network = true ∧ ev.networkCapabilities = true
         ∧ ev.transportInfoClassName = Aware.AWARE_NETWORK_INFO_CLASS_NAME) := by
  intro ev
  obtain ⟨cb, n, nc, t⟩ := ev
  have hdiff : ¬ (Aware.NetworkCbName.ON_UNAVAILABLE
      = Aware.NetworkCbName.ON_CAPABILITIES_CHANGED) := by decide
  have hdiff' : ¬ (Aware.NetworkCbName.ON_CAPABILITIES_CHANGED
      = Aware.NetworkCbName.ON_UNAVAILABLE) := fun hc => hdiff hc.symm
  unfold Aware.waitForNetwork
  by_cases h2 : cb = Aware.NetworkCbName.ON_CAPABILITIES_CHANGED
  · subst h2
    cases n <;> cases nc <;>
      by_cases h4 : t = Aware.AWARE_NETWORK_INFO_CLASS_NAME <;>
      simp [hdiff', h4, okB]
  · by_cases h1 : cb = Aware.NetworkCbName.ON_UNAVAILABLE
    · subst h1
      simp [hdiff, okB]
    · simp [h1, h2, okB]

/-- Helper: with `checkXmlTag` cleared and `isValid = True`, one loop
iteration of `is_commit_msg_valid` keeps `isValid = True` and `checkXmlTag`
cleared (only `checkResource` may change). -/
theorem msgValidStep_true_noXml (cr : Bool) (l : String) :
    ∃ cr2 : Bool, Hook.msgValidStep (true, cr, false) l = (true, cr2, false) := by
  cases cr
  · exact ⟨false, rfl⟩
  · by_cases hp : Hook.pyStartsWith (Hook.pyLower (Hook.pyStrip l)) "updated-overlayable" = true
    · exact ⟨false, by simp [Hook.msgValidStep, hp]⟩
    · exact ⟨true, by simp [Hook.msgValidStep, hp]⟩

/-- Helper: starting from `isValid = True` with `checkXmlTag` cleared, the
`is_commit_msg_valid` loop always ends with `isValid = True`: the
`checkResource` branch only ever assigns `True`. -/
theorem hook_fold_noXml (lines : List String) : ∀ cr : Bool,
    (List.foldl Hook.msgValidStep (true, cr, false) lines).1 = true := by
  induction lines with
  | nil => intro cr; rfl
  | cons l ls ih =>
    intro cr
    rw [List.foldl_cons]
    rcases msgValidStep_true_noXml cr l with ⟨cr2, hstep⟩
    rw [hstep]
    exact ih cr2

/-- Helper: once both flags are cleared, the `is_commit_msg_valid` loop no
longer changes its state. -/
theorem hook_fold_frozen (lines : List String) : ∀ b : Bool,
    List.foldl Hook.msgValidStep (b, false, false) lines = (b, false, false) := by
  induction lines with
  | nil => intro b; rfl
  | cons l ls ih =>
    intro b
    rw [List.foldl_cons]
    exact ih b

/-- Helper: with `checkResource` cleared and `checkXmlTag` set, the
`is_commit_msg_valid` loop ends with `isValid = True` exactly when there are
no lines (keeping the initial value when it is `True`) or some stripped,
lowercased line starts with the reviewed-cloud acknowledgment prefix. -/
theorem hook_fold_xml (lines : List String) : ∀ b : Bool,
    ((List.foldl Hook.msgValidStep (b, false, true) lines).1 = true ↔
      ((lines = [] ∧ b = true) ∨ ∃ l ∈ lines,
        Hook.pyStartsWith (Hook.pyLower (Hook.pyStrip l)) "reviewed-cloud-b&r" = true)) := by
  induction lines with
  | nil => intro b; simp
  | cons l ls ih =>
    intro b
    rw [List.foldl_cons]
    by_cases hp : Hook.pyStartsWith (Hook.pyLower (Hook.pyStrip l)) "reviewed-cloud-b&r" = true
    · have hstep : Hook.msgValidStep (b, false, true) l = (true, false, false) := by
        simp [Hook.msgValidStep, hp]
      rw [hstep, hook_fold_frozen]
      simp [hp]
    · have hstep : Hook.msgValidStep (b, false, true) l = (false, false, true) := by
        simp [Hook.msgValidStep, hp]
      rw [hstep, ih false]
      simp [hp]

/-- C8 (code bug): outside AOSP, a commit that changes a watched resource file
(here `config.xml`) with a commit message containing no `updated-overlayable`
line still makes `main` return 0, not 1: `is_commit_msg_valid(msg, True,
False)` returns `True` for every message (its `checkResource` branch never
assigns `isValid = False`), so the Updated-Overlayable requirement the hook
prints about is never enforced. -/
theorem c8_overlayable_check_never_fails :
    (∀ lines, Hook.is_commit_msg_valid lines true false = true)
  ∧ Hook.get_changed_resource_file [Hook.CONFIG_FILE] = some Hook.CONFIG_FILE
  ∧ Hook.main false false [] [Hook.CONFIG_FILE] = 0 := by
  refine ⟨fun lines => hook_fold_noXml lines true, by decide, by decide⟩

/-- C10: `is_commit_msg_valid` called with `checkResource=False` and
`checkXmlTag=True` returns `True` on the empty commit message (zero lines),
and returns `False` exactly when the message has at least one line and no
stripped, lowercased line starts with `reviewed-cloud-b&r`. -/
theorem c10_empty_message_xml_tag_valid :
    Hook.is_commit_msg_valid [] false true = true
  ∧ (∀ lines, Hook.is_commit_msg_valid lines false true = false ↔
      (lines ≠ [] ∧ ∀ l ∈ lines,
        Hook.pyStartsWith (Hook.pyLower (Hook.pyStrip l)) "reviewed-cloud-b&r" = false)) := by
  refine ⟨rfl, fun lines => ?_⟩
  unfold Hook.is_commit_msg_valid
  rw [Bool.eq_false_iff, Ne, hook_fold_xml lines true]
  push_neg
  simp [not_or, Bool.not_eq_true]

/-- Helper: `decodeAll` succeeds when every element decodes. -/
theorem decodeAll_isSome : ∀ (mfs : List (List Nat)),
    (∀ mf ∈ mfs, (Aware.utf8Decode mf).isSome = true) →
    (Aware.decodeAll mfs).isSome = true := by
  intro mfs
  induction mfs with
  | nil => intro _; rfl
  | cons b bs ih =>
    intro h
    have hb := h b (List.mem_cons_self b bs)
    have hbs := ih (fun mf hm => h mf (List.mem_cons_of_mem b hm))
    cases hd : Aware.utf8Decode b with
    | none => rw [hd] at hb; simp at hb
    | some s =>
      cases hds : Aware.decodeAll bs with
      | none => rw [hds] at hbs; simp at hbs
      | some ss => simp [Aware.decodeAll, hd, hds]

/-- C9: the config serializers are partial exactly on UTF-8 validity of the
byte fields: when the service-specific info and every match-filter element
decode as UTF-8, `to_dict` returns a mapping, while a config whose
service-specific info is the non-UTF-8 byte string `b"\xff"` makes `to_dict`
raise a decode error (`none`) instead of returning a mapping. -/
theorem c9_to_dict_partial_on_bytes :
    (∀ c : Aware.SubscribeConfig,
        (Aware.utf8Decode c.service_specific_info).isSome = true →
        (∀ mfs, c.match_filter = some mfs →
          ∀ mf ∈ mfs, (Aware.utf8Decode mf).isSome = true) →
        c.to_dict.isSome = true)
  ∧ (∀ c : Aware.PublishConfig,
        (Aware.utf8Decode c.service_specific_info).isSome = true →
        (∀ mfs, c.match_filter = some mfs →
          ∀ mf ∈ mfs, (Aware.utf8Decode mf).isSome = true) →
        c.to_dict.isSome = true)
  ∧ Aware.SubscribeConfig.to_dict
      { service_name := "s", service_specific_info := [255],
        match_filter := none, subscribe_type := Aware.SubscribeType.PASSIVE } = none
  ∧ Aware.PublishConfig.to_dict
      { service_name := "p", service_specific_info := [255],
        match_filter := none, publish_type := Aware.PublishType.UNSOLICITED,
        terminate_notification_enabled := false, ranging_enabled := false } = none := by
  have hmfe : ∀ (mfo : Option (List (List Nat))),
      (∀ mfs, mfo = some mfs → ∀ mf ∈ mfs, (Aware.utf8Decode mf).isSome = true) →
      (Aware.mfEntry mfo).isSome = true := by
    intro mfo hmf
    cases mfo with
    | none => rfl
    | some mfs =>
      have hda := decodeAll_isSome mfs (hmf mfs rfl)
      cases hd : Aware.decodeAll mfs with
      | none => rw [hd] at hda; simp at hda
      | some ss => simp [Aware.mfEntry, hd]
  refine ⟨?_, ?_, rfl, rfl⟩
  · intro c hssi hmf
    have hm := hmfe c.match_filter hmf
    unfold Aware.SubscribeConfig.to_dict
    cases hd : Aware.utf8Decode c.service_specific_info with
    | none => rw [hd] at hssi; simp at hssi
    | some ssi =>
      cases hme : Aware.mfEntry c.match_filter with
      | none => rw [hme] at hm; simp at hm
      | some part => simp
  · intro c hssi hmf
    have hm := hmfe c.match_filter hmf
    unfold Aware.PublishConfig.to_dict
    cases hd : Aware.utf8Decode c.service_specific_info with
    | none => rw [hd] at hssi; simp at hssi
    | some ssi =>
      cases hme : Aware.mfEntry c.match_filter with
      | none => rw [hme] at hm; simp at hm
      | some part => simp

/-- C6: in the mapping `to_dict` produces, the key of an optional field
(`match_filter`, `pairing_config`, and for subscribe `max_distance_mm`) is
present exactly when that field is not `None` — an absent field's key is
omitted entirely (and `PublishConfig` never has a `max_distance_mm` key);
when present, `match_filter` maps to the list of UTF-8-decoded strings, the
`subscribe_type`/`publish_type` key holds the integer enum code, and
`pairing_config` maps to its sub-mapping of three booleans plus the integer
bootstrapping bitmask. -/
theorem c6_to_dict_optional_fields :
    (∀ (c : Aware.SubscribeConfig) (d : List (String × Aware.JVal)),
        c.to_dict = some d →
          Aware.hasKey d "match_filter" = c.match_filter.isSome
        ∧ Aware.hasKey d "pairing_config" = c.pairing_config.isSome
        ∧ Aware.hasKey d "max_distance_mm" = c.max_distance_mm.isSome
        ∧ List.lookup "subscribe_type" d = some (Aware.JVal.jint c.subscribe_type.value)
        ∧ (∀ mfs, c.match_filter = some mfs →
            ∃ ss, Aware.decodeAll mfs = some ss
              ∧ List.lookup "match_filter" d
                  = some (Aware.JVal.jlist (ss.map Aware.JVal.jstr)))
        ∧ (∀ pc, c.pairing_config = some pc →
            List.lookup "pairing_config" d = some (Aware.JVal.jdict pc.to_dict)))
  ∧ (∀ (c : Aware.PublishConfig) (d : List (String × Aware.JVal)),
        c.to_dict = some d →
          Aware.hasKey d "match_filter" = c.match_filter.isSome
        ∧ Aware.hasKey d "pairing_config" = c.pairing_config.isSome
        ∧ Aware.hasKey d "max_distance_mm" = false
        ∧ List.lookup "publish_type" d = some (Aware.JVal.jint c.publish_type.value)
        ∧ (∀ mfs, c.match_filter = some mfs →
            ∃ ss, Aware.decodeAll mfs = some ss
              ∧ List.lookup "match_filter" d
                  = some (Aware.JVal.jlist (ss.map Aware.JVal.jstr)))
        ∧ (∀ pc, c.pairing_config = some pc →
            List.lookup "pairing_config" d = some (Aware.JVal.jdict pc.to_dict))) := by
  constructor
  · intro c d h
    obtain ⟨sn, ssi, mf, st, tn, md, pc⟩ := c
    unfold Aware.SubscribeConfig.to_dict at h
    dsimp only at h ⊢
    cases hd : Aware.utf8Decode ssi with
    | none => rw [hd] at h; exact absurd h (by simp)
    | some ssi2 =>
      rw [hd] at h
      cases mf with
      | none =>
        simp only [Aware.mfEntry, Option.some.injEq] at h
        subst h
        cases md with
        | none =>
          cases pc with
          | none =>
            refine ⟨?_, ?_, ?_, ?_, ?_, ?_⟩
            · rfl
            · rfl
            · rfl
            · rfl
            · exact fun x hx => nomatch hx
            · exact fun x hx => nomatch hx
          | some pc0 =>
            refine ⟨?_, ?_, ?_, ?_, ?_, ?_⟩
            · rfl
            · rfl
            · rfl
            · rfl
            · exact fun x hx => nomatch hx
            · intro x hx
              injection hx with he
              subst he
              rfl
        | some dist =>
          cases pc with
          | none =>
            refine ⟨?_, ?_, ?_, ?_, ?_, ?_⟩
            · rfl
            · rfl
            · rfl
            · rfl
            · exact fun x hx => nomatch hx
            · exact fun x hx => nomatch hx
          | some pc0 =>
            refine ⟨?_, ?_, ?_, ?_, ?_, ?_⟩
            · rfl
            · rfl
            · rfl
            · rfl
            · exact fun x hx => nomatch hx
            · intro x hx
              injection hx with he
              subst he
              rfl
      | some mfs =>
        cases hda : Aware.decodeAll mfs with
        | none => simp [Aware.mfEntry, hda] at h
        | some ss =>
          simp only [Aware.mfEntry, hda, Option.some.injEq] at h
          subst h
          cases md with
          | none =>
            cases pc with
            | none =>
              refine ⟨?_, ?_, ?_, ?_, ?_, ?_⟩
              · rfl
              · rfl
              · rfl
              · rfl
              · intro x hx
                injection hx with he
                subst he
                exact ⟨ss, hda, rfl⟩
              · exact fun x hx => nomatch hx
            | some pc0 =>
              refine ⟨?_, ?_, ?_, ?_, ?_, ?_⟩
              · rfl
              · rfl
              · rfl
              · rfl
              · intro x hx
                injection hx with he
                subst he
                exact ⟨ss, hda, rfl⟩
              · intro x hx
                injection hx with he
                subst he
                rfl
          | some dist =>
            cases pc with
            | none =>
              refine ⟨?_, ?_, ?_, ?_, ?_, ?_⟩
              · rfl
              · rfl
              · rfl
              · rfl
              · intro x hx
                injection hx with he
                subst he
                exact ⟨ss, hda, rfl⟩
              · exact fun x hx => nomatch hx
            | some pc0 =>
              refine ⟨?_, ?_, ?_, ?_, ?_, ?_⟩
              · rfl
              · rfl
              · rfl
              · rfl
              · intro x hx
                injection hx with he
                subst he
                exact ⟨ss, hda, rfl⟩
              · intro x hx
                injection hx with he
                subst he
                rfl
  · intro c d h
    obtain ⟨sn, ssi, mf, pt, tn, rg, pc⟩ := c
    unfold Aware.PublishConfig.to_dict at h
    dsimp only at h ⊢
    cases hd : Aware.utf8Decode ssi with
    | none => rw [hd] at h; exact absurd h (by simp)
    | some ssi2 =>
      rw [hd] at h
      cases mf with
      | none =>
        simp only [Aware.mfEntry, Option.some.injEq] at h
        subst h
        cases pc with
        | none =>
          refine ⟨?_, ?_, ?_, ?_, ?_, ?_⟩
          · rfl
          · rfl
          · rfl
          · rfl
          · exact fun x hx => nomatch hx
          · exact fun x hx => nomatch hx
        | some pc0 =>
          refine ⟨?_, ?_, ?_, ?_, ?_, ?_⟩
          · rfl
          · rfl
          · rfl
          · rfl
          · exact fun x hx => nomatch hx
          · intro x hx
            injection hx with he
            subst he
            rfl
      | some mfs =>
        cases hda : Aware.decodeAll mfs with
        | none => simp [Aware.mfEntry, hda] at h
        | some ss =>
          simp only [Aware.mfEntry, hda, Option.some.injEq] at h
          subst h
          cases pc with
          | none =>
            refine ⟨?_, ?_, ?_, ?_, ?_, ?_⟩
            · rfl
            · rfl
            · rfl
            · rfl
            · intro x hx
              injection hx with he
              subst he
              exact ⟨ss, hda, rfl⟩
            · exact fun x hx => nomatch hx
          | some pc0 =>
            refine ⟨?_, ?_, ?_, ?_, ?_, ?_⟩
            · rfl
            · rfl
            · rfl
            · rfl
            · intro x hx
              injection hx with he
              subst he
              exact ⟨ss, hda, rfl⟩
            · intro x hx
              injection hx with he
              subst he
              rfl

/-- C7 (counterexample): the subscriber-to-publisher message of
`test_create_wifi_aware_network` is `_MSG_SUB_TO_PUB`, whose text (here at the
concrete random identifier "abcde") is never the unused constant
`WifiAwareTestConstants.TEST_MESSAGE` = "test message!"; likewise the message
id is `_MSG_ID_SUB_TO_PUB = random.randint(1000, 5000)`, not the unused
constant 1234. -/
theorem c7_message_text_not_test_message :
    Aware.msgSubToPub "abcde" ≠ Aware.WifiAwareTestConstants.TEST_MESSAGE := by
  decide

/-- C7 (amended): in `test_create_wifi_aware_network` the publisher publishes
unsolicited with service-specific-info bytes "Extra bytes in the publisher
discovery" and match filter "bytes used for matching"; the subscriber
subscribes passively with the same match filter; the discovery step asserts
the subscriber's discovery event carries exactly those two byte sequences;
and the subscriber-to-publisher message is sent with a random identifier in
[1000, 5000] and text "Let's talk [Random Identifier: <5 random chars>]"
(never the unused constant "test message!" / 1234), whose byte-exact receipt
the message exchange asserts. -/
theorem c7_amended_end_to_end :
    Aware.testPublishConfig.publish_type = Aware.PublishType.UNSOLICITED
  ∧ Aware.testPublishConfig.service_specific_info
      = Aware.utf8Encode (Aware.strCps "Extra bytes in the publisher discovery")
  ∧ Aware.testPublishConfig.match_filter
      = some [Aware.utf8Encode (Aware.strCps "bytes used for matching")]
  ∧ Aware.testSubscribeConfig.subscribe_type = Aware.SubscribeType.PASSIVE
  ∧ Aware.testSubscribeConfig.match_filter = Aware.testPublishConfig.match_filter
  ∧ (∀ (pub_ssi : List Nat) (ev : Aware.DiscoverData),
      okB (Aware.waitForDiscoveryAsserts pub_ssi ev) = true ↔
        (ev.serviceSpecificInfo = Aware.WifiAwareTestConstants.PUB_SSI
         ∧ ev.matchFilter = [Aware.WifiAwareTestConstants.MATCH_FILTER_BYTES]))
  ∧ (∀ r, 1000 ≤ Aware.msgIdSubToPub r ∧ Aware.msgIdSubToPub r ≤ 5000)
  ∧ (∀ ident, Aware.msgSubToPub ident ≠ Aware.WifiAwareTestConstants.TEST_MESSAGE)
  ∧ (∀ (ident : String) (mid : Int)
       (sr : Aware.MessageSendResult) (re : Aware.MessageReceivedEvent),
      okB (Aware.sendMsgChecks (Aware.msgSubToPub ident) mid sr re) = true ↔
        (sr.callbackName = Aware.DiscoverySessionCallbackMethodType.MESSAGE_SEND_SUCCEEDED
         ∧ sr.messageId = mid
         ∧ Aware.utf8Decode re.receivedMessage = some (Aware.msgSubToPub ident))) := by
  refine ⟨rfl, rfl, rfl, rfl, rfl, ?_, ?_, ?_, ?_⟩
  · intro _p ev
    unfold Aware.waitForDiscoveryAsserts
    by_cases h1 : ev.serviceSpecificInfo = Aware.WifiAwareTestConstants.PUB_SSI
    · by_cases h2 : ev.matchFilter = [Aware.WifiAwareTestConstants.MATCH_FILTER_BYTES]
      · simp [h1, h2, okB]
      · simp [h1, h2, okB]
    · simp [h1, okB]
  · intro r
    unfold Aware.msgIdSubToPub
    have hm : r % 4001 < 4001 := Nat.mod_lt r (by omega)
    omega
  · intro ident h
    have h2 := congrArg String.length h
    simp only [Aware.msgSubToPub, Aware.WifiAwareTestConstants.TEST_MESSAGE,
      String.length_append] at h2
    have e1 : ("Let\x27s talk [Random Identifier: " : String).length = 31 := rfl
    have e2 : ("]" : String).length = 1 := rfl
    have e3 : ("test message!" : String).length = 13 := rfl
    omega
  · intro ident mid sr re
    unfold Aware.sendMsgChecks
    by_cases h1 : sr.callbackName
        = Aware.DiscoverySessionCallbackMethodType.MESSAGE_SEND_SUCCEEDED
    · by_cases h2 : sr.messageId = mid
      · cases hd : Aware.utf8Decode re.receivedMessage with
        | none => simp [h1, h2, hd, okB]
        | some r =>
          by_cases h3 : r = Aware.msgSubToPub ident
          · simp [h1, h2, hd, h3, okB]
          · simp [h1, h2, hd, h3, okB]
      · simp [h1, h2, okB]
    · simp [h1, okB]

example : Aware.utf8Decode (Aware.utf8Encode (Aware.strCps "hello")) = some "hello" := by decide
example : Aware.utf8Decode [0xFF] = none := by decide
example : Aware.utf8Decode [0xED, 0xA0, 0x80] = none := by decide
example : Aware.utf8Decode [0xC0, 0xAF] = none := by decide
example : Aware.utf8Decode [0xE2, 0x82, 0xAC] = some "€" := by decide
example : (Aware.testPublishConfig.to_dict).isSome = true := rfl
example : (Aware.testSubscribeConfig.to_dict).isSome = true := rfl
example : Aware.msgIdSubToPub 234 = 1234 := by decide
example : Hook.is_commit_msg_valid ["Reviewed-Cloud-B&R: TRUE"] false true = true := rfl
example : Hook.main false true ["some line"] [Hook.XML_UTIL_FILE] = 1 := rfl
